import Mathlib

/-!
Verification development for the ts-retoken token-refresh library.

The definitions below are a shallow embedding of the TypeScript sources:
  * `src/jwt.ts`          — expiration oracle (`parseTokenExpiration`, `isTokenExpiringSoon`)
  * `src/refresher.ts`    — refresh coordinator (dedup + retry state machine)
  * `src/createRetoken.ts`— request orchestrator (`wrappedFetch`, `wrappedFetchJson`,
                            `buildHeaders`)

Injected capabilities (the HTTP transport, the token store, the JSON decode
of a base64url payload) are modelled as explicit parameters; the stateful
parts (the module-level `refreshPromise` slot, the token store) are modelled
by explicit state passing.  Effects observable by the embedder (network
exchanges, retry sleeps, store mutations, callbacks) are recorded in event
traces so that ordering and counting claims can be stated.
-/

namespace Retoken

/-! ## Data model (`src/types.ts`) -/

/-- `TokenPair` from types.ts: `{ accessToken, refreshToken }`. -/
structure TokenPair where
  accessToken : String
  refreshToken : String
deriving Repr, DecidableEq

/-- JavaScript falsiness for a `string | null | undefined` value:
`null`/`undefined` (here `none`) and the empty string are falsy. -/
def isFalsyStr : Option String → Bool
  | none => true
  | some s => s = ""

/-! ## Expiration oracle (`src/jwt.ts`) -/

/-- JS `token.split('.')` on a character level.  `""` yields `[""]`,
`"a..c"` yields `["a", "", "c"]`, exactly as `String.prototype.split`. -/
def splitDotAux : List Char → List (List Char)
  | [] => [[]]
  | c :: cs =>
    let r := splitDotAux cs
    if c = '.' then [] :: r
    else
      match r with
      | [] => [[c]]
      | g :: gs => (c :: g) :: gs

/-- JS `token.split('.')`. -/
def splitDot (s : String) : List String :=
  (splitDotAux s.data).map String.mk

/-- Abstraction of `JSON.parse(base64UrlDecode(seg))` followed by reading the
`exp` claim (jwt.ts line 41–42):
  * `none`            — `atob` or `JSON.parse` threw (undecodable segment);
  * `some none`       — decoded, but `exp` is missing or not a number;
  * `some (some e)`   — `exp` is the number `e` (seconds since epoch). -/
structure JwtDecoder where
  decodePayload : String → Option (Option Int)

/-- `parseTokenExpiration` (jwt.ts lines 36–48): split on `'.'`, require
exactly three segments, decode the middle segment, require a numeric `exp`
claim, and convert seconds to milliseconds. -/
def parseTokenExpiration (dec : JwtDecoder) (token : String) : Option Int :=
  let parts := splitDot token
  if parts.length ≠ 3 then none
  else
    match dec.decodePayload (parts.getD 1 "") with
    | none => none
    | some none => none
    | some (some exp) => some (exp * 1000)

/-- `isTokenExpiringSoon` (jwt.ts lines 57–67).  `now` is `Date.now()` in
milliseconds.  `if (!token) return true` is JS falsiness: `null` or `""`. -/
def isTokenExpiringSoon (dec : JwtDecoder) (now : Int) (token : Option String)
    (leewaySeconds : Int) : Bool :=
  if isFalsyStr token then true
  else
    match parseTokenExpiration dec (token.getD "") with
    | none => true
    | some exp => decide (now ≥ exp - leewaySeconds * 1000)

/-! ## Refresh coordinator (`src/refresher.ts`) -/

/-- Outcome of one refresh attempt, i.e. one run of `performRefresh`
(refresher.ts lines 103–136) against the injected transport:
  * `success toks` — `response.ok`, and `parseResponse(await response.json())`
    produced `toks`;
  * `httpError s` — `!response.ok`, so `performRefresh` threw
    `RefreshError(..., s)` with `s = response.status`;
  * `otherError` — a non-`RefreshError` exception (network failure, body or
    parser failure). -/
inductive AttemptResult where
  | success (tokens : TokenPair)
  | httpError (status : Nat)
  | otherError
deriving Repr, DecidableEq

/-- The errors `refresh()` can surface:
  * `http s`  — `RefreshError` with `status = s` from a non-ok response;
  * `noToken` — `RefreshError('No refresh token available', 0)`;
  * `other`   — a non-`RefreshError` exception propagated unchanged. -/
inductive RefreshErr where
  | http (status : Nat)
  | noToken
  | other
deriving Repr, DecidableEq

/-- Decidable equality for `Except`, so refresh outcomes can be compared on
concrete inputs. -/
instance exceptDecEq {E A : Type} [DecidableEq E] [DecidableEq A] :
    DecidableEq (Except E A) := fun x y =>
  match x, y with
  | Except.error a, Except.error b =>
    if h : a = b then Decidable.isTrue (by rw [h]) else Decidable.isFalse (by simp [h])
  | Except.error _, Except.ok _ => Decidable.isFalse (by simp)
  | Except.ok _, Except.error _ => Decidable.isFalse (by simp)
  | Except.ok a, Except.ok b =>
    if h : a = b then Decidable.isTrue (by rw [h]) else Decidable.isFalse (by simp [h])

/-- The `status` field carried by the surfaced `RefreshError`, when the
surfaced exception is a `RefreshError` at all. -/
def RefreshErr.statusCode : RefreshErr → Option Nat
  | .http s => some s
  | .noToken => some 0
  | .other => none

/-- Observable effects of a `refresh()` call, in execution order. -/
inductive Event where
  | exchange
  | sleep (ms : Nat)
  | setTokens (p : TokenPair)
  | onTokenRefresh (p : TokenPair)
  | clearTokens
  | onAuthFailure
  | slotCleared
deriving Repr, DecidableEq

/-- The coordinator configuration (refresher.ts lines 12–22), restricted to
what the control flow reads.  `getRefreshToken = some v` models a configured
getter whose call returns `v` (`none` for JS `null`); `getRefreshToken = none`
models cookie mode (no getter supplied). -/
structure RefresherConfig where
  getRefreshToken : Option (Option String)
  retryDelays : List Nat
  skipOnClientError : Bool
  refreshFailureStatuses : List Nat

/-- `isAuthFailureStatus` (refresher.ts lines 93–95). -/
def isAuthFailureStatus (cfg : RefresherConfig) (s : Nat) : Bool :=
  cfg.refreshFailureStatuses.contains s

/-- `error.status >= 400 && error.status < 500` (refresher.ts lines 152–155). -/
def isClientErrorStatus (s : Nat) : Bool :=
  decide (400 ≤ s) && decide (s < 500)

/-- The loop body of `performRefreshWithRetry` (refresher.ts lines 142–164).
`oracle n` is the outcome of the attempt with loop index `n`; `remaining` is
`retryDelays.drop attempt`, so `remaining = []` iff
`attempt === retryDelays.length`, and `retryDelays[attempt]` is
`remaining.head`.  Each attempt records one `.exchange`; each backoff records
one `.sleep`. -/
def retryGo (cfg : RefresherConfig) (oracle : Nat → AttemptResult) :
    Nat → List Nat → Except RefreshErr TokenPair × List Event
  | attempt, [] =>
    -- `attempt === retryDelays.length`: in the source, a caught error is
    -- rethrown here on every classification branch (auth-failure status,
    -- skip-on-client-error, or budget exhausted), so the branches collapse.
    match oracle attempt with
    | .success toks => (Except.ok toks, [Event.exchange])
    | .httpError s => (Except.error (RefreshErr.http s), [Event.exchange])
    | .otherError => (Except.error RefreshErr.other, [Event.exchange])
  | attempt, d :: rest =>
    match oracle attempt with
    | .success toks => (Except.ok toks, [Event.exchange])
    | .httpError s =>
      if isAuthFailureStatus cfg s then
        (Except.error (RefreshErr.http s), [Event.exchange])
      else if cfg.skipOnClientError && isClientErrorStatus s then
        (Except.error (RefreshErr.http s), [Event.exchange])
      else
        let r := retryGo cfg oracle (attempt + 1) rest
        (r.1, Event.exchange :: Event.sleep d :: r.2)
    | .otherError =>
      let r := retryGo cfg oracle (attempt + 1) rest
      (r.1, Event.exchange :: Event.sleep d :: r.2)

/-- `performRefreshWithRetry` (refresher.ts lines 139–167): the loop starts
at attempt 0 with the whole delay sequence ahead of it. -/
def performRefreshWithRetry (cfg : RefresherConfig) (oracle : Nat → AttemptResult) :
    Except RefreshErr TokenPair × List Event :=
  retryGo cfg oracle 0 cfg.retryDelays

/-- The effects the settling promise chain of refresher.ts lines 192–204
appends after the retry loop ends: on success the then-handler (persist, then
the completion callback), on failure the catch-handler (`handleAuthFailure`:
clear, then the auth-failure callback, then rethrow), and in both cases the
finally-handler (`refreshPromise = null`) last. -/
def settleChainEvents : Except RefreshErr TokenPair → List Event
  | Except.ok toks =>
    [Event.setTokens toks, Event.onTokenRefresh toks, Event.slotCleared]
  | Except.error _ =>
    [Event.clearTokens, Event.onAuthFailure, Event.slotCleared]

/-- The `.then(...).catch(...).finally(...)` chain built at refresher.ts
lines 192–204: the retry loop result passes through unchanged (the
then-handler returns the tokens, the catch-handler rethrows), and the
handler effects run — all before the outer promise, the one every caller
awaits, settles; the events are recorded in that order. -/
def refreshChain (cfg : RefresherConfig) (oracle : Nat → AttemptResult) :
    Except RefreshErr TokenPair × List Event :=
  ((performRefreshWithRetry cfg oracle).1,
   (performRefreshWithRetry cfg oracle).2
     ++ settleChainEvents (performRefreshWithRetry cfg oracle).1)

/-- `getRefreshToken && !refreshToken` (refresher.ts line 186): a getter is
configured and its value is JS-falsy. -/
def noTokenPath (cfg : RefresherConfig) : Bool :=
  match cfg.getRefreshToken with
  | some v => isFalsyStr v
  | none => false

/-- The body of `refresh()` for a call that finds `refreshPromise === null`
(refresher.ts lines 176–207).  If a getter is configured and returns a falsy
value, `handleAuthFailure()` runs (clear, then the auth-failure callback) and
`RefreshError('No refresh token available', 0)` is thrown with no exchange
and with `refreshPromise` never set; otherwise the retry chain runs. -/
def refreshIdle (cfg : RefresherConfig) (oracle : Nat → AttemptResult) :
    Except RefreshErr TokenPair × List Event :=
  if noTokenPath cfg then
    (Except.error RefreshErr.noToken, [Event.clearTokens, Event.onAuthFailure])
  else
    refreshChain cfg oracle

/-! ### The deduplication slot

`refreshPromise` (refresher.ts line 90) is the only shared mutable state.
A call that passes the token-sourcing check runs synchronously from the
`if (refreshPromise)` test (line 178) to the assignment (line 192) — there is
no `await` in between, and JS tasks are not preempted — so with respect to
other callers the check-and-set is atomic.  `DedupState` tracks the slot, a
counter supplying fresh future identities, and how many refresh chains (each
backed by exactly one `performRefreshWithRetry` run) have been started. -/

structure DedupState where
  refreshPromise : Option Nat
  nextId : Nat
  started : Nat
deriving Repr, DecidableEq

def DedupState.initial : DedupState := ⟨none, 0, 0⟩

/-- One `refresh()` call, as far as the slot is concerned: join the pending
future if one is in flight (refresher.ts lines 178–180), otherwise start a
new chain and publish its future in the slot (line 192).  Returns the future
the caller awaits. -/
def callRefresh (st : DedupState) : Nat × DedupState :=
  match st.refreshPromise with
  | some fid => (fid, st)
  | none => (st.nextId, ⟨some st.nextId, st.nextId + 1, st.started + 1⟩)

/-- `n` back-to-back `refresh()` calls (concurrent callers: JS runs their
synchronous prefixes one after another). Returns the futures each received. -/
def callRefreshN : Nat → DedupState → List Nat × DedupState
  | 0, st => ([], st)
  | n + 1, st =>
    let r := callRefresh st
    let rs := callRefreshN n r.2
    (r.1 :: rs.1, rs.2)

/-- The finally-handler `refreshPromise = null` (refresher.ts line 203). -/
def settleRefresh (st : DedupState) : DedupState :=
  { st with refreshPromise := none }

/-- A refresh round as observed globally: chain actions, then continuations. -/
inductive RoundEvent where
  | act (e : Event)
  | continuation (caller : Nat)
deriving Repr, DecidableEq

/-- The global trace of one settling refresh with `k` waiting callers: the
chain events run first (the finally-handler, which clears the slot, fires
before the outer promise settles), and only then do the `await refreshPromise`
continuations of the `k` callers resume. -/
def roundTrace (cfg : RefresherConfig) (oracle : Nat → AttemptResult) (k : Nat) :
    List RoundEvent :=
  (refreshChain cfg oracle).2.map RoundEvent.act
    ++ (List.range k).map RoundEvent.continuation

/-! ## Request orchestrator (`src/createRetoken.ts`) -/

/-- The token store behind the injected capabilities: `getAccessToken` reads
`access`, `setTokens` writes both fields, `clearTokens` empties both. -/
structure TokenStore where
  access : Option String
  refresh : Option String
deriving Repr, DecidableEq

/-- A transport response, as the orchestrator observes it: a status code and
the outcome of `response.json()` (`none` models a rejected parse). -/
structure Response (B : Type) where
  status : Nat
  jsonBody : Option B
deriving Repr, DecidableEq

/-- Orchestrator configuration (createRetoken.ts lines 66–83), restricted to
what `wrappedFetch`/`wrappedFetchJson` read.  `jwt` and `now` feed the
expiration oracle. -/
structure RetokenConfig where
  jwt : JwtDecoder
  now : Int
  expirationLeeway : Int
  retryStatuses : List Nat

/-- The defaulted configuration values (createRetoken.ts lines 16–30). -/
def DEFAULTS.expirationLeeway : Int := 60
def DEFAULTS.retryStatuses : List Nat := [401]
def DEFAULTS.refreshFailureStatuses : List Nat := [401, 403]
def DEFAULTS.retryDelays : List Nat := [3000, 6000, 12000]
def DEFAULTS.skipOnClientError : Bool := true

/-- The injected environment of one `wrappedFetch` run: the response to the
`n`-th target request issued, and the outcome of the `n`-th
`refresher.refresh()` call. -/
structure WrapEnv (B : Type) where
  responses : Nat → Response B
  refreshResults : Nat → Except RefreshErr TokenPair

/-- Mutable state threaded through the orchestrator: the token store plus
ordinals for issued requests and refresh calls. -/
structure WrapState where
  store : TokenStore
  fetchCount : Nat
  refreshCount : Nat
deriving Repr, DecidableEq

/-- Orchestrator-level observable events, in order. -/
inductive WEvent where
  | refreshCall (n : Nat)
  | request (n : Nat) (headers : List (String × String))
deriving Repr, DecidableEq

/-- Whether an orchestrator event is a call into the refresh coordinator. -/
def isRefreshCallEv : WEvent → Bool
  | WEvent.refreshCall _ => true
  | WEvent.request _ _ => false

/-- `refresher.refresh()` as the orchestrator sees it: the `n`-th call yields
`env.refreshResults n`; on success the refresher has run `setTokens`, on
failure `handleAuthFailure` has run `clearTokens`. -/
def doRefresh {B : Type} (env : WrapEnv B) (st : WrapState) :
    Except RefreshErr TokenPair × WrapState :=
  match env.refreshResults st.refreshCount with
  | Except.ok toks =>
    (Except.ok toks,
      { st with
          store := ⟨some toks.accessToken, some toks.refreshToken⟩,
          refreshCount := st.refreshCount + 1 })
  | Except.error e =>
    (Except.error e,
      { st with store := ⟨none, none⟩, refreshCount := st.refreshCount + 1 })

/-- `checkTokenExpiringSoon` (createRetoken.ts lines 114–117). -/
def checkTokenExpiringSoon (cfg : RetokenConfig) (st : WrapState) : Bool :=
  isTokenExpiringSoon cfg.jwt cfg.now st.store.access cfg.expirationLeeway

/-- `Headers.set`: replace the value under `nm` if present, else append. -/
def headerSet (hs : List (String × String)) (nm v : String) :
    List (String × String) :=
  if hs.any (fun p => p.1 = nm) then
    hs.map (fun p => if p.1 = nm then (p.1, v) else p)
  else hs ++ [(nm, v)]

/-- `new Headers(custom)` normalizes header names to lowercase. -/
def normalizeHeaders (custom : List (String × String)) :
    List (String × String) :=
  custom.map (fun p => (p.1.toLower, p.2))

/-- `buildHeaders` (createRetoken.ts lines 120–127): start from the caller's
headers; if the current access token is truthy, set
`Authorization: Bearer <token>`, otherwise leave the headers untouched. -/
def buildHeaders (access : Option String) (custom : List (String × String)) :
    List (String × String) :=
  let hs := normalizeHeaders custom
  if isFalsyStr access then hs
  else headerSet hs "authorization" ("Bearer " ++ access.getD "")

/-- Per-call options of `wrappedFetch` (types.ts `RetokenFetchOptions`). -/
structure WrapOptions where
  skipProactiveRefresh : Bool := false
  skipRetry : Bool := false
  headers : List (String × String) := []

/-- `wrappedFetch` (createRetoken.ts lines 130–173).
Proactive phase: when not skipped and the current token is expiring soon,
call the refresher once and swallow any failure.  Then issue the request with
headers built from the access token read at that moment.  Reactive phase:
when not skipped and the status is in `retryStatuses`, call the refresher
once; on success rebuild headers from the now-current token and reissue the
request exactly once, returning that second response unconditionally; on
refresh failure return the original response.

`proactiveStep` is the proactive phase (createRetoken.ts lines 141–149):
when not skipped and the current token is expiring soon, call the refresher
once and swallow any failure; `wrappedFetch` is the whole wrapper. -/
def proactiveStep {B : Type} (cfg : RetokenConfig) (env : WrapEnv B)
    (opts : WrapOptions) (st : WrapState) : WrapState × List WEvent :=
  if !opts.skipProactiveRefresh && checkTokenExpiringSoon cfg st then
    ((doRefresh env st).2, [WEvent.refreshCall st.refreshCount])
  else (st, [])

def wrappedFetch {B : Type} (cfg : RetokenConfig) (env : WrapEnv B)
    (opts : WrapOptions) (st : WrapState) :
    Response B × WrapState × List WEvent :=
  let proactive := proactiveStep cfg env opts st
  let st1 := proactive.1
  let hs := buildHeaders st1.store.access opts.headers
  let resp := env.responses st1.fetchCount
  let st2 : WrapState := { st1 with fetchCount := st1.fetchCount + 1 }
  let evs2 := proactive.2 ++ [WEvent.request st1.fetchCount hs]
  if !opts.skipRetry && cfg.retryStatuses.contains resp.status then
    let r := doRefresh env st2
    match r.1 with
    | Except.ok _ =>
      let hs2 := buildHeaders r.2.store.access opts.headers
      let resp2 := env.responses r.2.fetchCount
      let st3 : WrapState := { r.2 with fetchCount := r.2.fetchCount + 1 }
      (resp2, st3,
        evs2 ++ [WEvent.refreshCall st2.refreshCount,
                 WEvent.request r.2.fetchCount hs2])
    | Except.error _ =>
      (resp, r.2, evs2 ++ [WEvent.refreshCall st2.refreshCount])
  else (resp, st2, evs2)

/-- What `wrappedFetchJson` ends with:
  * `ok (some b)` — expected status, body parsed as `b`;
  * `ok none` — the 204 No Content path (`return null as T`);
  * `fetchError st body` — `FetchError(status, errorBody)` thrown for an
    unexpected status, `body = none` when the error-body parse failed;
  * `parseThrow` — `response.json()` rejected on the expected-status path and
    the rejection propagated unchanged. -/
inductive JsonResult (B : Type) where
  | ok (v : Option B)
  | fetchError (status : Nat) (body : Option B)
  | parseThrow
deriving Repr, DecidableEq

/-- Per-call options of `wrappedFetchJson` (types.ts
`RetokenFetchJsonOptions`): the expected-statuses set defaults to
`[200, 201]` (createRetoken.ts line 180). -/
structure JsonOptions where
  expectedStatuses : List Nat := [200, 201]
  fetchOpts : WrapOptions := {}

/-- `wrappedFetchJson` (createRetoken.ts lines 176–205): delegate to
`wrappedFetch`; if the status is not expected, best-effort-parse the body
(falling back to `null`) and throw `FetchError`; then — only after that
check — map 204 to `null`; otherwise return the parsed body. -/
def wrappedFetchJson {B : Type} (cfg : RetokenConfig) (env : WrapEnv B)
    (opts : JsonOptions) (st : WrapState) :
    JsonResult B × WrapState × List WEvent :=
  let r := wrappedFetch cfg env opts.fetchOpts st
  let resp := r.1
  if !opts.expectedStatuses.contains resp.status then
    (JsonResult.fetchError resp.status resp.jsonBody, r.2.1, r.2.2)
  else if resp.status = 204 then
    (JsonResult.ok none, r.2.1, r.2.2)
  else
    match resp.jsonBody with
    | some b => (JsonResult.ok (some b), r.2.1, r.2.2)
    | none => (JsonResult.parseThrow, r.2.1, r.2.2)

/-! ## Helper lemmas -/

theorem parseTokenExpiration_empty (dec : JwtDecoder) :
    parseTokenExpiration dec "" = none := rfl

theorem parseTokenExpiration_def (dec : JwtDecoder) (token : String) :
    parseTokenExpiration dec token =
      if (splitDot token).length ≠ 3 then none
      else
        match dec.decodePayload ((splitDot token).getD 1 "") with
        | none => none
        | some none => none
        | some (some exp) => some (exp * 1000) := rfl

theorem parseTokenExpiration_none_iff (dec : JwtDecoder) (token : String) :
    parseTokenExpiration dec token = none ↔
      ((splitDot token).length ≠ 3 ∨
       dec.decodePayload ((splitDot token).getD 1 "") = none ∨
       dec.decodePayload ((splitDot token).getD 1 "") = some none) := by
  rw [parseTokenExpiration_def]
  by_cases hlen : (splitDot token).length ≠ 3
  · rw [if_pos hlen]
    simp [hlen]
  · rw [if_neg hlen]
    cases hd : dec.decodePayload ((splitDot token).getD 1 "") with
    | none => simp [hlen, hd]
    | some o => cases o <;> simp [hlen, hd]

theorem parseTokenExpiration_some (dec : JwtDecoder) (token : String) (e : Int)
    (hlen : (splitDot token).length = 3)
    (hd : dec.decodePayload ((splitDot token).getD 1 "") = some (some e)) :
    parseTokenExpiration dec token = some (e * 1000) := by
  rw [parseTokenExpiration_def, if_neg (by simp [hlen]), hd]

theorem isTokenExpiringSoon_true_iff (dec : JwtDecoder) (now : Int)
    (token : Option String) (leeway : Int) :
    isTokenExpiringSoon dec now token leeway = true ↔
      (token = none ∨
       parseTokenExpiration dec (token.getD "") = none ∨
       ∃ e, parseTokenExpiration dec (token.getD "") = some e ∧
         now ≥ e - leeway * 1000) := by
  cases token with
  | none => simp [isTokenExpiringSoon, isFalsyStr]
  | some t =>
    by_cases ht : t = ""
    · subst ht
      simp [isTokenExpiringSoon, isFalsyStr, parseTokenExpiration_empty]
    · have hf : isFalsyStr (some t) = false := by simp [isFalsyStr, ht]
      simp only [isTokenExpiringSoon, hf, Bool.false_eq_true, if_false,
        Option.getD_some]
      cases hp : parseTokenExpiration dec t with
      | none => simp [hp]
      | some e => simp [hp]

theorem retryGo_exchange_le (cfg : RefresherConfig) (oracle : Nat → AttemptResult) :
    ∀ (rem : List Nat) (attempt : Nat),
      (retryGo cfg oracle attempt rem).2.count Event.exchange ≤ rem.length + 1 := by
  intro rem
  induction rem with
  | nil =>
    intro attempt
    cases h : oracle attempt <;> simp [retryGo, h]
  | cons d rest ih =>
    intro attempt
    cases h : oracle attempt with
    | success toks => simp [retryGo, h]
    | httpError s =>
      by_cases hauth : isAuthFailureStatus cfg s = true
      · simp [retryGo, h, hauth]
      · by_cases hcl : (cfg.skipOnClientError && isClientErrorStatus s) = true
        · simp [retryGo, h, hauth, hcl]
        · have hrec := ih (attempt + 1)
          simp [retryGo, h, hauth, hcl, List.count_cons]
          omega
    | otherError =>
      have hrec := ih (attempt + 1)
      simp [retryGo, h, List.count_cons]
      omega

theorem retryGo_exhaust (cfg : RefresherConfig) (oracle : Nat → AttemptResult)
    (s : Nat → Nat)
    (hall : ∀ i, oracle i = AttemptResult.httpError (s i))
    (hauth : ∀ i, isAuthFailureStatus cfg (s i) = false)
    (hcl : ∀ i, (cfg.skipOnClientError && isClientErrorStatus (s i)) = false) :
    ∀ (rem : List Nat) (attempt : Nat),
      retryGo cfg oracle attempt rem
        = (Except.error (RefreshErr.http (s (attempt + rem.length))),
           (rem.flatMap fun d => [Event.exchange, Event.sleep d])
             ++ [Event.exchange]) := by
  intro rem
  induction rem with
  | nil =>
    intro attempt
    simp [retryGo, hall attempt]
  | cons d rest ih =>
    intro attempt
    have harith : attempt + 1 + rest.length = attempt + (rest.length + 1) := by omega
    simp [retryGo, hall attempt, hauth attempt, hcl attempt, ih (attempt + 1), harith]

theorem exhaust_exchange_count (rem : List Nat) :
    ((rem.flatMap fun d => [Event.exchange, Event.sleep d])
        ++ [Event.exchange]).count Event.exchange = rem.length + 1 := by
  induction rem with
  | nil => simp
  | cons d rest ih =>
    have hsplit : ((d :: rest).flatMap fun x => [Event.exchange, Event.sleep x])
          ++ [Event.exchange]
        = Event.exchange :: Event.sleep d ::
            ((rest.flatMap fun x => [Event.exchange, Event.sleep x])
              ++ [Event.exchange]) := by
      simp [List.flatMap_cons]
    rw [hsplit, List.count_cons, List.count_cons, ih]
    simp

theorem contains_eq_false_of_not_mem {a : Nat} {l : List Nat} (h : a ∉ l) :
    l.contains a = false := by
  cases hc : l.contains a with
  | false => rfl
  | true => exact absurd (List.elem_iff.mp hc) h

theorem callRefreshN_inflight (n : Nat) (st : DedupState) (fid : Nat)
    (h : st.refreshPromise = some fid) :
    callRefreshN n st = (List.replicate n fid, st) := by
  induction n with
  | zero => simp [callRefreshN]
  | succ m ih =>
    have hc : callRefresh st = (fid, st) := by simp [callRefresh, h]
    simp [callRefreshN, hc, ih, List.replicate_succ]

/-! ## Claim theorems -/

/-- C9: `isTokenExpiringSoon token leeway` is true exactly when the token is
absent, fails to parse (wrong segment count, undecodable middle segment, or a
missing or non-numeric `exp` claim), or the current time is at or past
expiration minus leeway; `parseTokenExpiration` yields the `exp` claim in
milliseconds for a well-formed token and `none` otherwise; and a token
expiring 120 seconds from now is not expiring soon under a 60-second
leeway. -/
theorem isTokenExpiringSoon_spec :
    (∀ (dec : JwtDecoder) (now : Int) (token : Option String) (leeway : Int),
      isTokenExpiringSoon dec now token leeway = true ↔
        (token = none ∨
         parseTokenExpiration dec (token.getD "") = none ∨
         ∃ e, parseTokenExpiration dec (token.getD "") = some e ∧
           now ≥ e - leeway * 1000)) ∧
    (∀ (dec : JwtDecoder) (token : String),
      parseTokenExpiration dec token = none ↔
        ((splitDot token).length ≠ 3 ∨
         dec.decodePayload ((splitDot token).getD 1 "") = none ∨
         dec.decodePayload ((splitDot token).getD 1 "") = some none)) ∧
    (∀ (dec : JwtDecoder) (token : String) (e : Int),
      (splitDot token).length = 3 →
      dec.decodePayload ((splitDot token).getD 1 "") = some (some e) →
      parseTokenExpiration dec token = some (e * 1000)) ∧
    (∀ (dec : JwtDecoder) (now : Int) (token : String) (e : Int),
      token ≠ "" →
      (splitDot token).length = 3 →
      dec.decodePayload ((splitDot token).getD 1 "") = some (some e) →
      e * 1000 = now + 120000 →
      isTokenExpiringSoon dec now (some token) 60 = false) := by
  refine ⟨isTokenExpiringSoon_true_iff, parseTokenExpiration_none_iff,
    parseTokenExpiration_some, ?_⟩
  intro dec now token e hne hlen hd he
  have hp := parseTokenExpiration_some dec token e hlen hd
  have hiff := isTokenExpiringSoon_true_iff dec now (some token) 60
  cases hb : isTokenExpiringSoon dec now (some token) 60 with
  | false => rfl
  | true =>
    exfalso
    rcases hiff.mp hb with hc | hc | ⟨e2, he2, hge⟩
    · exact Option.noConfusion hc
    · rw [Option.getD_some, hp] at hc
      exact Option.noConfusion hc
    · rw [Option.getD_some, hp] at he2
      injection he2 with h2
      omega

/-- C9 witness: a concrete token whose `exp` claim is 120 seconds past a
concrete `now` parses to `exp * 1000` and is not expiring soon with leeway
60. -/
theorem isTokenExpiringSoon_spec_witness :
    parseTokenExpiration ⟨fun _ => some (some 1120)⟩ "h.p.s" = some (1120 * 1000) ∧
    isTokenExpiringSoon ⟨fun _ => some (some 1120)⟩ 1000000 (some "h.p.s") 60 = false := by
  constructor
  · exact isTokenExpiringSoon_spec.2.2.1 ⟨fun _ => some (some 1120)⟩ "h.p.s" 1120
      (by decide) (by decide)
  · exact isTokenExpiringSoon_spec.2.2.2 ⟨fun _ => some (some 1120)⟩ 1000000 "h.p.s" 1120
      (by decide) (by decide) (by decide) (by decide)

/-- C5: with a configured refresh-token getter returning an absent value,
`refresh()` fails with the status-0 terminal error, performs no network
exchange, and runs the store clear and then the auth-failure callback before
the error is surfaced. -/
theorem refresh_noToken_spec (cfg : RefresherConfig) (oracle : Nat → AttemptResult)
    (h : cfg.getRefreshToken = some none) :
    refreshIdle cfg oracle
      = (Except.error RefreshErr.noToken, [Event.clearTokens, Event.onAuthFailure]) ∧
    RefreshErr.noToken.statusCode = some 0 ∧
    (refreshIdle cfg oracle).2.count Event.exchange = 0 := by
  have h1 : refreshIdle cfg oracle
      = (Except.error RefreshErr.noToken, [Event.clearTokens, Event.onAuthFailure]) := by
    simp [refreshIdle, noTokenPath, h, isFalsyStr]
  refine ⟨h1, rfl, ?_⟩
  rw [h1]
  rfl

/-- C5 witness: concrete configuration with a getter returning `null`. -/
theorem refresh_noToken_spec_witness :
    refreshIdle ⟨some none, [3000, 6000, 12000], true, [401, 403]⟩
        (fun _ => AttemptResult.httpError 500)
      = (Except.error RefreshErr.noToken, [Event.clearTokens, Event.onAuthFailure]) ∧
    RefreshErr.noToken.statusCode = some 0 ∧
    (refreshIdle ⟨some none, [3000, 6000, 12000], true, [401, 403]⟩
        (fun _ => AttemptResult.httpError 500)).2.count Event.exchange = 0 :=
  refresh_noToken_spec ⟨some none, [3000, 6000, 12000], true, [401, 403]⟩
    (fun _ => AttemptResult.httpError 500) rfl

/-- C10: an empty-string token is treated as absent: a configured getter
returning `""` takes the terminal no-token path (status-0 error, store clear
and auth-failure callback, no exchange), and with an empty access token the
Authorization header is omitted from the built headers entirely. -/
theorem emptyString_token_absent :
    (∀ (cfg : RefresherConfig) (oracle : Nat → AttemptResult),
      cfg.getRefreshToken = some (some "") →
      refreshIdle cfg oracle
        = (Except.error RefreshErr.noToken, [Event.clearTokens, Event.onAuthFailure]) ∧
      RefreshErr.noToken.statusCode = some 0 ∧
      (refreshIdle cfg oracle).2.count Event.exchange = 0) ∧
    (∀ custom, buildHeaders (some "") custom = normalizeHeaders custom) ∧
    (∀ custom, (∀ p ∈ custom, (p : String × String).1.toLower ≠ "authorization") →
      ∀ p ∈ buildHeaders (some "") custom, (p : String × String).1 ≠ "authorization") := by
  refine ⟨?_, ?_, ?_⟩
  · intro cfg oracle h
    have h1 : refreshIdle cfg oracle
        = (Except.error RefreshErr.noToken, [Event.clearTokens, Event.onAuthFailure]) := by
      simp [refreshIdle, noTokenPath, h, isFalsyStr]
    refine ⟨h1, rfl, ?_⟩
    rw [h1]
    rfl
  · intro custom
    rfl
  · intro custom hcustom p hp
    have hb : buildHeaders (some "") custom = normalizeHeaders custom := rfl
    rw [hb] at hp
    simp only [normalizeHeaders, List.mem_map] at hp
    obtain ⟨q, hq, rfl⟩ := hp
    exact hcustom q hq

/-- C10 witness: concrete getter returning `""` and concrete custom
headers. -/
theorem emptyString_token_absent_witness :
    refreshIdle ⟨some (some ""), [3000], true, [401]⟩
        (fun _ => AttemptResult.httpError 500)
      = (Except.error RefreshErr.noToken, [Event.clearTokens, Event.onAuthFailure]) ∧
    (∀ p ∈ buildHeaders (some "") ([] : List (String × String)),
      (p : String × String).1 ≠ "authorization") := by
  constructor
  · exact (emptyString_token_absent.1 ⟨some (some ""), [3000], true, [401]⟩
      (fun _ => AttemptResult.httpError 500) rfl).1
  · exact emptyString_token_absent.2.2 ([] : List (String × String)) (by simp)

/-- C4: when the first refresh response carries a status in
`refreshFailureStatuses`, or a 4xx status with `skipOnClientError` enabled,
`refresh()` fails terminally after exactly one exchange — no sleep, no
retry, whatever retry budget remains — and the surfaced `RefreshError`
carries that status. -/
theorem refresh_terminal_classification (cfg : RefresherConfig)
    (oracle : Nat → AttemptResult) (s : Nat)
    (hresp : oracle 0 = AttemptResult.httpError s)
    (hterm : s ∈ cfg.refreshFailureStatuses ∨
             (cfg.skipOnClientError = true ∧ 400 ≤ s ∧ s < 500))
    (htok : noTokenPath cfg = false) :
    performRefreshWithRetry cfg oracle
      = (Except.error (RefreshErr.http s), [Event.exchange]) ∧
    refreshIdle cfg oracle
      = (Except.error (RefreshErr.http s),
         [Event.exchange, Event.clearTokens, Event.onAuthFailure, Event.slotCleared]) ∧
    (RefreshErr.http s).statusCode = some s ∧
    (refreshIdle cfg oracle).2.count Event.exchange = 1 := by
  have hbranch : ∀ (d : Nat) (rest : List Nat),
      retryGo cfg oracle 0 (d :: rest)
        = (Except.error (RefreshErr.http s), [Event.exchange]) := by
    intro d rest
    rcases hterm with hmem | ⟨hskip, h400, h500⟩
    · have hc : isAuthFailureStatus cfg s = true := by
        unfold isAuthFailureStatus
        exact List.elem_iff.mpr hmem
      simp [retryGo, hresp, hc]
    · by_cases hauth : isAuthFailureStatus cfg s = true
      · simp [retryGo, hresp, hauth]
      · have hcl : isClientErrorStatus s = true := by
          simp [isClientErrorStatus]
          omega
        simp [retryGo, hresp, hauth, hskip, hcl]
  have h1 : performRefreshWithRetry cfg oracle
      = (Except.error (RefreshErr.http s), [Event.exchange]) := by
    unfold performRefreshWithRetry
    cases cfg.retryDelays with
    | nil => simp [retryGo, hresp]
    | cons d rest => exact hbranch d rest
  have h2 : refreshIdle cfg oracle
      = (Except.error (RefreshErr.http s),
         [Event.exchange, Event.clearTokens, Event.onAuthFailure, Event.slotCleared]) := by
    rw [refreshIdle, htok]
    simp [refreshChain, settleChainEvents, h1]
  refine ⟨h1, h2, rfl, ?_⟩
  rw [h2]
  rfl

/-- C4 witness: `skipOnClientError = true` and a 400 response, with 400 not
in `refreshFailureStatuses` and two retry delays remaining: one exchange,
terminal failure with status 400. -/
theorem refresh_terminal_classification_witness :
    performRefreshWithRetry ⟨some (some "rt"), [3000, 6000], true, [401, 403]⟩
        (fun _ => AttemptResult.httpError 400)
      = (Except.error (RefreshErr.http 400), [Event.exchange]) ∧
    refreshIdle ⟨some (some "rt"), [3000, 6000], true, [401, 403]⟩
        (fun _ => AttemptResult.httpError 400)
      = (Except.error (RefreshErr.http 400),
         [Event.exchange, Event.clearTokens, Event.onAuthFailure, Event.slotCleared]) ∧
    (RefreshErr.http 400).statusCode = some 400 ∧
    (refreshIdle ⟨some (some "rt"), [3000, 6000], true, [401, 403]⟩
        (fun _ => AttemptResult.httpError 400)).2.count Event.exchange = 1 :=
  refresh_terminal_classification ⟨some (some "rt"), [3000, 6000], true, [401, 403]⟩
    (fun _ => AttemptResult.httpError 400) 400 rfl
    (Or.inr ⟨rfl, by decide, by decide⟩) (by decide)

/-- C3: retry consumes the delay sequence in order without reuse or wrapping:
with delays of length n there are at most n + 1 exchanges; with delays
`[d1, d2]` and a retryable 500 on the first two attempts then success,
exactly 3 exchanges occur with sleeps of d1 then d2 between them and the
parsed TokenPair is returned; and when every attempt fails retryably the
call fails with the status observed on the last attempt. -/
theorem retry_consumes_delays_in_order :
    (∀ (cfg : RefresherConfig) (oracle : Nat → AttemptResult),
      (performRefreshWithRetry cfg oracle).2.count Event.exchange
        ≤ cfg.retryDelays.length + 1) ∧
    (∀ (cfg : RefresherConfig) (d1 d2 : Nat) (toks : TokenPair)
       (oracle : Nat → AttemptResult),
      cfg.retryDelays = [d1, d2] →
      500 ∉ cfg.refreshFailureStatuses →
      oracle 0 = AttemptResult.httpError 500 →
      oracle 1 = AttemptResult.httpError 500 →
      oracle 2 = AttemptResult.success toks →
      performRefreshWithRetry cfg oracle
        = (Except.ok toks,
           [Event.exchange, Event.sleep d1, Event.exchange, Event.sleep d2,
            Event.exchange])) ∧
    (∀ (cfg : RefresherConfig) (oracle : Nat → AttemptResult) (s : Nat → Nat),
      (∀ i, oracle i = AttemptResult.httpError (s i)) →
      (∀ i, isAuthFailureStatus cfg (s i) = false) →
      (∀ i, (cfg.skipOnClientError && isClientErrorStatus (s i)) = false) →
      (performRefreshWithRetry cfg oracle).1
        = Except.error (RefreshErr.http (s cfg.retryDelays.length)) ∧
      (performRefreshWithRetry cfg oracle).2.count Event.exchange
        = cfg.retryDelays.length + 1) := by
  refine ⟨?_, ?_, ?_⟩
  · intro cfg oracle
    exact retryGo_exchange_le cfg oracle cfg.retryDelays 0
  · intro cfg d1 d2 toks oracle hdel hnm h0 h1 h2
    have hA : isAuthFailureStatus cfg 500 = false := by
      unfold isAuthFailureStatus
      cases hc : cfg.refreshFailureStatuses.contains 500 with
      | false => rfl
      | true => exact absurd (List.elem_iff.mp hc) hnm
    have hC : isClientErrorStatus 500 = false := by decide
    unfold performRefreshWithRetry
    rw [hdel]
    simp [retryGo, h0, h1, h2, hA, hC]
  · intro cfg oracle s hall hauth hcl
    have h := retryGo_exhaust cfg oracle s hall hauth hcl cfg.retryDelays 0
    unfold performRefreshWithRetry
    rw [h]
    refine ⟨by simp, ?_⟩
    simpa using exhaust_exchange_count cfg.retryDelays

/-- C3 witness: delays [7, 9], 500 twice then success, and an exhaustion run
with a single delay. -/
theorem retry_consumes_delays_in_order_witness :
    performRefreshWithRetry ⟨none, [7, 9], true, [401, 403]⟩
        (fun n => if n < 2 then AttemptResult.httpError 500
                  else AttemptResult.success ⟨"a", "r"⟩)
      = (Except.ok ⟨"a", "r"⟩,
         [Event.exchange, Event.sleep 7, Event.exchange, Event.sleep 9,
          Event.exchange]) ∧
    (performRefreshWithRetry ⟨none, [7], true, [401, 403]⟩
        (fun _ => AttemptResult.httpError 500)).1
      = Except.error (RefreshErr.http 500) := by
  constructor
  · exact retry_consumes_delays_in_order.2.1 ⟨none, [7, 9], true, [401, 403]⟩ 7 9
      ⟨"a", "r"⟩ _ rfl (by decide) rfl rfl rfl
  · exact (retry_consumes_delays_in_order.2.2 ⟨none, [7], true, [401, 403]⟩
      (fun _ => AttemptResult.httpError 500) (fun _ => 500)
      (fun _ => rfl)
      (fun _ => (by decide :
        isAuthFailureStatus ⟨none, [7], true, [401, 403]⟩ 500 = false))
      (fun _ => (by decide :
        ((⟨none, [7], true, [401, 403]⟩ : RefresherConfig).skipOnClientError
          && isClientErrorStatus 500) = false))).1

/-- C1: starting from the idle state, N ≥ 1 back-to-back `refresh()` calls
start exactly one refresh chain (one network exchange), every caller receives
the very same pending future, and therefore — however that single future
settles — all N callers observe the identical outcome. -/
theorem refresh_dedup (st : DedupState) (n : Nat)
    (hidle : st.refreshPromise = none) (hn : 1 ≤ n) :
    (callRefreshN n st).2.started = st.started + 1 ∧
    (callRefreshN n st).1 = List.replicate n st.nextId ∧
    (∀ out : Nat → Except RefreshErr TokenPair,
      ∀ f ∈ (callRefreshN n st).1, ∀ g ∈ (callRefreshN n st).1, out f = out g) := by
  obtain ⟨m, rfl⟩ : ∃ m, n = m + 1 := ⟨n - 1, by omega⟩
  have hfirst : callRefresh st
      = (st.nextId, ⟨some st.nextId, st.nextId + 1, st.started + 1⟩) := by
    simp [callRefresh, hidle]
  have hjoin : callRefreshN m (⟨some st.nextId, st.nextId + 1, st.started + 1⟩ : DedupState)
      = (List.replicate m st.nextId,
         ⟨some st.nextId, st.nextId + 1, st.started + 1⟩) :=
    callRefreshN_inflight m _ st.nextId rfl
  have hrun : callRefreshN (m + 1) st
      = (st.nextId :: List.replicate m st.nextId,
         ⟨some st.nextId, st.nextId + 1, st.started + 1⟩) := by
    simp [callRefreshN, hfirst, hjoin]
  refine ⟨by rw [hrun], by rw [hrun]; rfl, ?_⟩
  intro out f hf g hg
  rw [hrun] at hf hg
  have hf2 : f = st.nextId := by
    rcases List.mem_cons.mp hf with h | h
    · exact h
    · exact List.eq_of_mem_replicate h
  have hg2 : g = st.nextId := by
    rcases List.mem_cons.mp hg with h | h
    · exact h
    · exact List.eq_of_mem_replicate h
  rw [hf2, hg2]

/-- C1 witness: three concurrent callers from the initial idle state. -/
theorem refresh_dedup_witness :
    (callRefreshN 3 DedupState.initial).2.started = DedupState.initial.started + 1 ∧
    (callRefreshN 3 DedupState.initial).1 = List.replicate 3 DedupState.initial.nextId :=
  ⟨(refresh_dedup DedupState.initial 3 rfl (by decide)).1,
   (refresh_dedup DedupState.initial 3 rfl (by decide)).2.1⟩

/-- C8: the finally-handler clears the in-flight slot as the last action of
the settling chain; in the global round trace the clearing precedes every
caller continuation; and once the slot is cleared a subsequent `refresh()`
call starts a new, independent refresh chain with a fresh future. -/
theorem refresh_settle_clears_slot :
    (∀ (cfg : RefresherConfig) (oracle : Nat → AttemptResult),
      ∃ evs, (refreshChain cfg oracle).2 = evs ++ [Event.slotCleared]) ∧
    (∀ (cfg : RefresherConfig) (oracle : Nat → AttemptResult) (k i j c : Nat),
      (roundTrace cfg oracle k)[i]? = some (RoundEvent.act Event.slotCleared) →
      (roundTrace cfg oracle k)[j]? = some (RoundEvent.continuation c) →
      i < j) ∧
    (∀ (st : DedupState) (fid : Nat), st.refreshPromise = some fid →
      (settleRefresh st).refreshPromise = none ∧
      (callRefresh (settleRefresh st)).2.started = st.started + 1 ∧
      (callRefresh (settleRefresh st)).1 = st.nextId) := by
  refine ⟨?_, ?_, ?_⟩
  · intro cfg oracle
    unfold refreshChain
    cases hres : (performRefreshWithRetry cfg oracle).1 with
    | ok toks =>
      refine ⟨(performRefreshWithRetry cfg oracle).2
        ++ [Event.setTokens toks, Event.onTokenRefresh toks], ?_⟩
      simp [settleChainEvents]
    | error e =>
      refine ⟨(performRefreshWithRetry cfg oracle).2
        ++ [Event.clearTokens, Event.onAuthFailure], ?_⟩
      simp [settleChainEvents]
  · intro cfg oracle k i j c hi hj
    unfold roundTrace at hi hj
    set l1 := (refreshChain cfg oracle).2.map RoundEvent.act with hl1
    have hilt : i < l1.length := by
      by_contra hge
      push_neg at hge
      rw [List.getElem?_append_right hge, List.getElem?_map] at hi
      cases hr : (List.range k)[i - l1.length]? <;> rw [hr] at hi <;> simp at hi
    have hjge : l1.length ≤ j := by
      by_contra hlt
      push_neg at hlt
      rw [List.getElem?_append_left hlt, hl1, List.getElem?_map] at hj
      cases hr : (refreshChain cfg oracle).2[j]? <;> rw [hr] at hj <;> simp at hj
    omega
  · intro st fid hin
    refine ⟨rfl, ?_, ?_⟩ <;> simp [callRefresh, settleRefresh]

/-- C8 witness: a concrete settled round with two waiting callers, and a
concrete in-flight state that is settled and then refreshed anew. -/
theorem refresh_settle_clears_slot_witness :
    (3 : Nat) < 4 ∧
    (settleRefresh ⟨some 5, 6, 1⟩).refreshPromise = none ∧
    (callRefresh (settleRefresh ⟨some 5, 6, 1⟩)).2.started = 2 ∧
    (callRefresh (settleRefresh ⟨some 5, 6, 1⟩)).1 = 6 := by
  have h := refresh_settle_clears_slot.2.2 ⟨some 5, 6, 1⟩ 5 rfl
  refine ⟨?_, h.1, h.2.1, h.2.2⟩
  exact refresh_settle_clears_slot.2.1 ⟨none, [], true, []⟩
    (fun _ => AttemptResult.success ⟨"a", "r"⟩) 2 3 4 0 (by decide) (by decide)

/-- C7: when proactive refresh is not skipped and the current token is
expiring soon (absent, unparsable, or within the leeway — this is exactly
`checkTokenExpiringSoon`), the coordinator is called exactly once, strictly
before the request, and whatever the refresh outcome the original request is
still issued and its response returned — the failure is never surfaced;
when the token is not expiring soon, no refresh call happens at all. -/
theorem proactive_refresh_phase :
    (∀ (B : Type) (cfg : RetokenConfig) (env : WrapEnv B) (opts : WrapOptions)
       (st : WrapState),
      opts.skipProactiveRefresh = false →
      checkTokenExpiringSoon cfg st = true →
      (env.responses st.fetchCount).status ∉ cfg.retryStatuses →
      (wrappedFetch cfg env opts st).1 = env.responses st.fetchCount ∧
      (wrappedFetch cfg env opts st).2.2.countP isRefreshCallEv = 1 ∧
      ∃ h, (wrappedFetch cfg env opts st).2.2
        = [WEvent.refreshCall st.refreshCount, WEvent.request st.fetchCount h]) ∧
    (∀ (B : Type) (cfg : RetokenConfig) (env : WrapEnv B) (opts : WrapOptions)
       (st : WrapState),
      checkTokenExpiringSoon cfg st = false →
      (env.responses st.fetchCount).status ∉ cfg.retryStatuses →
      (wrappedFetch cfg env opts st).1 = env.responses st.fetchCount ∧
      (wrappedFetch cfg env opts st).2.2.countP isRefreshCallEv = 0 ∧
      (wrappedFetch cfg env opts st).2.2
        = [WEvent.request st.fetchCount
            (buildHeaders st.store.access opts.headers)]) := by
  constructor
  · intro B cfg env opts st hskip hexp hns
    have hc : cfg.retryStatuses.contains (env.responses st.fetchCount).status = false :=
      contains_eq_false_of_not_mem hns
    cases hr : env.refreshResults st.refreshCount with
    | ok toks =>
      refine ⟨?_, ?_, ⟨buildHeaders (some toks.accessToken) opts.headers, ?_⟩⟩ <;>
        simp [wrappedFetch, proactiveStep, doRefresh, hr, hskip, hexp, hc, hns, isRefreshCallEv]
    | error e =>
      refine ⟨?_, ?_, ⟨buildHeaders none opts.headers, ?_⟩⟩ <;>
        simp [wrappedFetch, proactiveStep, doRefresh, hr, hskip, hexp, hc, hns, isRefreshCallEv]
  · intro B cfg env opts st hexp hns
    have hc : cfg.retryStatuses.contains (env.responses st.fetchCount).status = false :=
      contains_eq_false_of_not_mem hns
    refine ⟨?_, ?_, ?_⟩ <;> simp [wrappedFetch, proactiveStep, hexp, hc, hns, isRefreshCallEv]

/-- C7 witness: a token expiring 30 seconds after `now` under leeway 60
triggers exactly one proactive refresh before the request; a token expiring
3600 seconds after `now` triggers zero refresh calls.  `now` is 1000000 ms,
so the `exp` claims are 1030 and 4600 seconds. -/
theorem proactive_refresh_phase_witness :
    ((wrappedFetch (⟨⟨fun _ => some (some 1030)⟩, 1000000, 60, [401]⟩ : RetokenConfig)
        (⟨fun _ => ⟨200, some 7⟩, fun _ => Except.error RefreshErr.other⟩ : WrapEnv Nat)
        {} ⟨⟨some "h.p.s", some "r"⟩, 0, 0⟩).2.2.countP isRefreshCallEv = 1) ∧
    ((wrappedFetch (⟨⟨fun _ => some (some 4600)⟩, 1000000, 60, [401]⟩ : RetokenConfig)
        (⟨fun _ => ⟨200, some 7⟩, fun _ => Except.error RefreshErr.other⟩ : WrapEnv Nat)
        {} ⟨⟨some "h.p.s", some "r"⟩, 0, 0⟩).2.2.countP isRefreshCallEv = 0) := by
  constructor
  · exact (proactive_refresh_phase.1 Nat
      ⟨⟨fun _ => some (some 1030)⟩, 1000000, 60, [401]⟩
      ⟨fun _ => ⟨200, some 7⟩, fun _ => Except.error RefreshErr.other⟩
      {} ⟨⟨some "h.p.s", some "r"⟩, 0, 0⟩ rfl (by decide) (by decide)).2.1
  · exact (proactive_refresh_phase.2 Nat
      ⟨⟨fun _ => some (some 4600)⟩, 1000000, 60, [401]⟩
      ⟨fun _ => ⟨200, some 7⟩, fun _ => Except.error RefreshErr.other⟩
      {} ⟨⟨some "h.p.s", some "r"⟩, 0, 0⟩ (by decide) (by decide)).2.1

/-- C6: for every request — whatever the proactive phase did, its result
state being `proactiveStep` — if the response status is in `retryStatuses`
and retry is not skipped, exactly one reactive refresh is triggered; on
refresh success the request is reissued exactly once with headers rebuilt
from the now-current token and that second response is returned as-is (no
further retry loop); on refresh failure the original failed response is
returned rather than a refresh exception. -/
theorem reactive_retry_once (B : Type) (cfg : RetokenConfig) (env : WrapEnv B)
    (opts : WrapOptions) (st : WrapState)
    (hskip : opts.skipRetry = false)
    (hmem : (env.responses (proactiveStep cfg env opts st).1.fetchCount).status
      ∈ cfg.retryStatuses) :
    ((wrappedFetch cfg env opts st).2.2.drop
        (proactiveStep cfg env opts st).2.length).countP isRefreshCallEv = 1 ∧
    (∀ toks,
      env.refreshResults (proactiveStep cfg env opts st).1.refreshCount
        = Except.ok toks →
      (wrappedFetch cfg env opts st).1
        = env.responses ((proactiveStep cfg env opts st).1.fetchCount + 1) ∧
      (wrappedFetch cfg env opts st).2.1.fetchCount
        = (proactiveStep cfg env opts st).1.fetchCount + 2 ∧
      (wrappedFetch cfg env opts st).2.2
        = (proactiveStep cfg env opts st).2
            ++ [WEvent.request (proactiveStep cfg env opts st).1.fetchCount
                  (buildHeaders (proactiveStep cfg env opts st).1.store.access
                    opts.headers),
                WEvent.refreshCall (proactiveStep cfg env opts st).1.refreshCount,
                WEvent.request ((proactiveStep cfg env opts st).1.fetchCount + 1)
                  (buildHeaders (some toks.accessToken) opts.headers)]) ∧
    (∀ e,
      env.refreshResults (proactiveStep cfg env opts st).1.refreshCount
        = Except.error e →
      (wrappedFetch cfg env opts st).1
        = env.responses (proactiveStep cfg env opts st).1.fetchCount ∧
      (wrappedFetch cfg env opts st).2.1.fetchCount
        = (proactiveStep cfg env opts st).1.fetchCount + 1 ∧
      (wrappedFetch cfg env opts st).2.2
        = (proactiveStep cfg env opts st).2
            ++ [WEvent.request (proactiveStep cfg env opts st).1.fetchCount
                  (buildHeaders (proactiveStep cfg env opts st).1.store.access
                    opts.headers),
                WEvent.refreshCall (proactiveStep cfg env opts st).1.refreshCount]) := by
  have hc : cfg.retryStatuses.contains
      (env.responses (proactiveStep cfg env opts st).1.fetchCount).status = true :=
    List.elem_iff.mpr hmem
  have hwf : wrappedFetch cfg env opts st
      = (let st1 := (proactiveStep cfg env opts st).1
         let hs := buildHeaders st1.store.access opts.headers
         let resp := env.responses st1.fetchCount
         let st2 : WrapState := { st1 with fetchCount := st1.fetchCount + 1 }
         let evs2 := (proactiveStep cfg env opts st).2
           ++ [WEvent.request st1.fetchCount hs]
         if !opts.skipRetry && cfg.retryStatuses.contains resp.status then
           let r := doRefresh env st2
           match r.1 with
           | Except.ok _ =>
             let hs2 := buildHeaders r.2.store.access opts.headers
             let resp2 := env.responses r.2.fetchCount
             let st3 : WrapState := { r.2 with fetchCount := r.2.fetchCount + 1 }
             (resp2, st3,
               evs2 ++ [WEvent.refreshCall st2.refreshCount,
                        WEvent.request r.2.fetchCount hs2])
           | Except.error _ =>
             (resp, r.2, evs2 ++ [WEvent.refreshCall st2.refreshCount])
         else (resp, st2, evs2)) := rfl
  refine ⟨?_, ?_, ?_⟩
  · cases hr : env.refreshResults (proactiveStep cfg env opts st).1.refreshCount <;>
      simp [hwf, doRefresh, hr, hskip, hc, hmem, isRefreshCallEv, List.drop_left]
  · intro toks hr
    refine ⟨?_, ?_, ?_⟩ <;> simp [hwf, doRefresh, hr, hskip, hc, hmem]
  · intro e hr
    refine ⟨?_, ?_, ?_⟩ <;> simp [hwf, doRefresh, hr, hskip, hc, hmem]

/-- C6 witness: a 401 response, refresh succeeding with a new token, second
request issued with the new bearer token and returned. -/
theorem reactive_retry_once_witness :
    ((wrappedFetch (⟨⟨fun _ => some (some 999)⟩, 0, 60, [401]⟩ : RetokenConfig)
        (⟨fun n => if n = 0 then ⟨401, none⟩ else ⟨200, some 7⟩,
          fun _ => Except.ok ⟨"na", "nr"⟩⟩ : WrapEnv Nat)
        ⟨true, false, []⟩ ⟨⟨some "h.p.s", some "r"⟩, 0, 0⟩).2.2.countP
      isRefreshCallEv = 1) ∧
    ((wrappedFetch (⟨⟨fun _ => some (some 999)⟩, 0, 60, [401]⟩ : RetokenConfig)
        (⟨fun n => if n = 0 then ⟨401, none⟩ else ⟨200, some 7⟩,
          fun _ => Except.ok ⟨"na", "nr"⟩⟩ : WrapEnv Nat)
        ⟨true, false, []⟩ ⟨⟨some "h.p.s", some "r"⟩, 0, 0⟩).1 = ⟨200, some 7⟩) := by
  have h := reactive_retry_once Nat ⟨⟨fun _ => some (some 999)⟩, 0, 60, [401]⟩
    ⟨fun n => if n = 0 then ⟨401, none⟩ else ⟨200, some 7⟩,
      fun _ => Except.ok ⟨"na", "nr"⟩⟩
    ⟨true, false, []⟩ ⟨⟨some "h.p.s", some "r"⟩, 0, 0⟩ rfl (by decide)
  exact ⟨h.1, ((h.2.1 ⟨"na", "nr"⟩ rfl).1).trans rfl⟩

/-- C2 counterexample: under the default expected-statuses set `[200, 201]`,
`fetchJson` against a 204 response does not return a null result — it throws
`FetchError` with status 204 — refuting the claim that 204 yields null even
when 204 is not in the expected set. -/
theorem fetchJson_204_default_cex :
    (wrappedFetchJson (⟨⟨fun _ => some (some 999999)⟩, 0, 60, [401]⟩ : RetokenConfig)
        (⟨fun _ => ⟨204, none⟩, fun _ => Except.error RefreshErr.other⟩ : WrapEnv Nat)
        {} ⟨⟨some "h.p.s", some "r"⟩, 0, 0⟩).1
      = JsonResult.fetchError 204 none ∧
    (wrappedFetchJson (⟨⟨fun _ => some (some 999999)⟩, 0, 60, [401]⟩ : RetokenConfig)
        (⟨fun _ => ⟨204, none⟩, fun _ => Except.error RefreshErr.other⟩ : WrapEnv Nat)
        {} ⟨⟨some "h.p.s", some "r"⟩, 0, 0⟩).1
      ≠ JsonResult.ok none := by
  constructor <;> decide

/-- C2 (amended): `fetchJson` against a 204 response returns a null result,
bypassing JSON parsing, exactly when 204 is a member of the expected-statuses
set; when 204 is not in the expected set (in particular under the default
`[200, 201]`), it instead throws a `FetchError` carrying status 204 and the
best-effort error body. -/
theorem fetchJson_204_expected_gate {B : Type} (cfg : RetokenConfig)
    (env : WrapEnv B) (opts : JsonOptions) (st : WrapState)
    (h204 : (wrappedFetch cfg env opts.fetchOpts st).1.status = 204) :
    ((204 : Nat) ∈ opts.expectedStatuses →
      (wrappedFetchJson cfg env opts st).1 = JsonResult.ok none) ∧
    ((204 : Nat) ∉ opts.expectedStatuses →
      (wrappedFetchJson cfg env opts st).1
        = JsonResult.fetchError 204
            (wrappedFetch cfg env opts.fetchOpts st).1.jsonBody) := by
  constructor
  · intro hmem
    have hc : opts.expectedStatuses.contains 204 = true := List.elem_iff.mpr hmem
    simp [wrappedFetchJson, h204, hc, hmem]
  · intro hnm
    have hc : opts.expectedStatuses.contains 204 = false :=
      contains_eq_false_of_not_mem hnm
    simp [wrappedFetchJson, h204, hc, hnm]

/-- C2 witness: with 204 added to the expected set, a 204 response whose body
would not even parse still yields the null result. -/
theorem fetchJson_204_expected_gate_witness :
    (wrappedFetchJson (⟨⟨fun _ => some (some 999999)⟩, 0, 60, [401]⟩ : RetokenConfig)
        (⟨fun _ => ⟨204, none⟩, fun _ => Except.error RefreshErr.other⟩ : WrapEnv Nat)
        ⟨[200, 201, 204], {}⟩ ⟨⟨some "h.p.s", some "r"⟩, 0, 0⟩).1
      = JsonResult.ok none :=
  (fetchJson_204_expected_gate
    (⟨⟨fun _ => some (some 999999)⟩, 0, 60, [401]⟩ : RetokenConfig)
    (⟨fun _ => ⟨204, none⟩, fun _ => Except.error RefreshErr.other⟩ : WrapEnv Nat)
    ⟨[200, 201, 204], {}⟩ ⟨⟨some "h.p.s", some "r"⟩, 0, 0⟩ (by decide)).1 (by decide)

end Retoken
